import Mathlib

/-!
Shallow embedding of the background-task core of the three PySide6 GUI tools
(Audio/main-gui.py, Video/main-gui.py, Imagenes/main-gui.py).

The embedded code is the worker classes and API-client functions:
`ApiWorker.run/stop`, `AudioGenerator.run/stop`, `ElevenLabsTTS._start_worker`,
`VideoTaskWorker.run/stop`, `NovitaApiClient.start_image_to_video_task`,
`NovitaApiClient.get_task_result`, and `ImageGeneratorThread.run`.

Modelling conventions:
* The mutable cooperative-cancellation flag (`is_running` / `_is_running`) is
  read at a fixed sequence of checkpoints.  An external `stop()` call is a
  monotone event, so the whole schedule of reads is modelled by an
  `Option Nat`: `none` means the flag is never cleared, `some t` means reads
  with index `≥ t` observe `False`.
* HTTP calls are inputs: either a response (status, body, parsed JSON) or a
  raised `requests.exceptions.RequestException` / other `Exception`
  (constructors `netErr` / `otherErr`), matching the `try/except` structure.
* `response.json()` is modelled as `Except String α`: `.error m` is the
  exception raised on an unparsable body, with message `m`.
* Python truthiness of strings/ints is modelled explicitly (`s ≠ ""`,
  `n ≠ 0`, `Option`).
* Qt signal emissions are collected in order into a list of events; the
  number of HTTP status queries made by the polling worker is returned
  alongside its events.
-/

namespace Spec2Proof

/-- Value observed by the `i`-th read of the cancellation flag of a worker.
`none`: `stop()` is never called; `some t`: reads with index `≥ t` see the
flag cleared (monotone, matching the one-way `stop()` write). -/
def flagAt (c : Option Nat) (i : Nat) : Bool :=
  match c with
  | none => true
  | some t => decide (i < t)

/-! ## `ApiWorker` (Audio/main-gui.py, lines 15-59) -/

/-- HTTP method of an `ApiWorker` request (constructor argument `method`;
only "GET" and "POST" are issued by the code). -/
inductive Method where
  | get
  | post
deriving DecidableEq

/-- First argument of the `finished` signal: `None`, a parsed JSON document
(abstracted to its text), or the raw `response` object. -/
inductive ApiData where
  | noData
  | jsonData (j : String)
  | rawResponse
deriving DecidableEq

/-- Result of the single `requests.get`/`requests.post` call in
`ApiWorker.run`: a response carrying status code, body text, and the result
of a later `response.json()` call, or a raised exception. -/
inductive HttpReply where
  | ok (status : Nat) (body : String) (jsonVal : Except String String)
  | netErr (msg : String)
  | otherErr (msg : String)

/-- One emission of the `finished = Signal(object, bool, str)` signal. -/
structure FinishedMsg where
  data : ApiData
  success : Bool
  errMsg : String
deriving DecidableEq

/-- Result of running `ApiWorker.run`: the `finished` emissions in order,
and whether an HTTP request was issued at all. -/
structure ApiRunResult where
  events : List FinishedMsg
  requested : Bool
deriving DecidableEq

/-- Embedding of `ApiWorker.run` (Audio/main-gui.py lines 27-56).  Flag reads: index 0 is
the check at the top of `run`, index 1 is the re-check after the request. -/
def apiWorkerRun (c : Option Nat) (method : Method) (reply : HttpReply) : ApiRunResult :=
  if flagAt c 0 = false then
    ⟨[⟨.noData, false, "Operación cancelada antes de iniciar."⟩], false⟩
  else
    match reply with
    | .netErr m => ⟨[⟨.noData, false, "Error de red: " ++ m⟩], true⟩
    | .otherErr m => ⟨[⟨.noData, false, m⟩], true⟩
    | .ok status body jsonVal =>
      if flagAt c 1 = false then
        ⟨[⟨.noData, false, "Operación cancelada durante la ejecución."⟩], true⟩
      else if status = 200 then
        -- `response.json() if self.method != "POST" or response.content else response`
        if method = .get ∨ body ≠ "" then
          match jsonVal with
          | .ok j => ⟨[⟨.jsonData j, true, ""⟩], true⟩
          | .error m => ⟨[⟨.noData, false, m⟩], true⟩  -- json() raised; caught by `except Exception`
        else
          ⟨[⟨.rawResponse, true, ""⟩], true⟩
      else
        ⟨[⟨.noData, false, "Error: " ++ toString status ++ " - " ++ body⟩], true⟩

/-! ## Cancellation-token writes (`stop` methods and the `finally` blocks)

`ApiWorker.__init__` / `AudioGenerator.__init__` set `self.is_running = True`;
the only writes afterwards are `stop()` (`self.is_running = False`) and the
`finally:` clause of `run` (`self.is_running = False`). -/

/-- Initial token state set in `__init__`: `is_running = True`. -/
def tokenInit : Bool := true

/-- Embedding of `stop()` (Audio/main-gui.py lines 58-59 and 149-150):
unconditional
`self.is_running = False`. -/
def tokenStop (_s : Bool) : Bool := false

/-- The `finally: self.is_running = False` at the end of `run`. -/
def tokenRunFinally (_s : Bool) : Bool := false

/-- The two operations that write the flag after construction. -/
inductive TokenWrite where
  | stopW
  | runFinallyW
deriving DecidableEq

/-- Apply one write to the token state. -/
def applyWrite (s : Bool) : TokenWrite → Bool
  | .stopW => tokenStop s
  | .runFinallyW => tokenRunFinally s

/-- Token state after a sequence of writes performed during the lifetime of
one task, starting from the `__init__` state. -/
def tokenAfter (ws : List TokenWrite) : Bool := ws.foldl applyWrite tokenInit

/-! ## `ElevenLabsTTS._start_worker` (Audio/main-gui.py, lines 359-383) -/

/-- Runner slot state: `none` = `self.worker_thread is None`,
`some b` = a thread object exists with `isRunning() = b`. -/
def RunnerSlot : Type := Option Bool

/-- Embedding of `_start_worker`: returns the new slot state, the returned `started`
boolean, and the number of new worker threads spawned (`QThread()` created
and started). -/
def startWorker : Option Bool → Option Bool × Bool × Nat
  | some true => (some true, false, 0)   -- warning path: reject, spawn nothing
  | some false => (some true, true, 1)
  | none => (some true, true, 1)

/-- Embedding of `_clear_worker_references` (lines 385-388), run after the thread
finishes: clears the slot. -/
def clearWorkerReferences (_s : Option Bool) : Option Bool := none

/-- Iterate `startWorker` `n` times: final state, the list of returned
`started` booleans, and the total number of threads spawned. -/
def startMany (s : Option Bool) : Nat → Option Bool × List Bool × Nat
  | 0 => (s, [], 0)
  | n + 1 =>
    let r1 := startWorker s
    let r2 := startMany r1.1 n
    (r2.1, r1.2.1 :: r2.2.1, r1.2.2 + r2.2.2)

/-! ## `AudioGenerator` (Audio/main-gui.py, lines 63-150) -/

/-- One emission of the signals of `AudioGenerator`: `progress = Signal(int)` or
`finished = Signal(str, bool, str)` (file path omitted; the written byte
count is tracked separately). -/
inductive AudEvent where
  | progress (p : Nat)
  | finished (success : Bool) (msg : String)
deriving DecidableEq

/-- Result of the streaming `requests.post`: a response with status, body
text, the parsed `content-length` header (`none` if absent or empty), the
sizes of the chunks yielded by `iter_content` in order (`0` = an empty
chunk, skipped by `if chunk:`), and an optional exception raised by the
stream after those chunks (`true` = `RequestException`); or an exception
raised by the call itself. -/
inductive StreamReply where
  | ok (status : Nat) (body : String) (contentLength : Option Nat)
       (chunks : List Nat) (streamErr : Option (Bool × String))
  | netErr (msg : String)
  | otherErr (msg : String)

/-- Result of `AudioGenerator.run`: emissions in order, total bytes written
to the sink file, and whether the HTTP request was issued. -/
structure AudioRunResult where
  events : List AudEvent
  bytesWritten : Nat
  requested : Bool
deriving DecidableEq

/-- The progress event emitted for a nonempty chunk (lines 129-132):
real progress `int(total_size / expected_size * 100)` when a nonzero
`content-length` was declared, otherwise the cyclic estimate `(i * 5) % 100`.
(`int()` on the nonnegative float is floor, i.e. `Nat` division here.) -/
def chunkProgress (clen : Option Nat) (i t' : Nat) : AudEvent :=
  match clen with
  | some l => if l ≠ 0 then .progress (t' * 100 / l) else .progress ((i * 5) % 100)
  | none => .progress ((i * 5) % 100)

/-- The chunk loop of `AudioGenerator.run` (lines 117-139), including the
post-loop empty-file check and forced final `progress.emit(100)`.
Arguments: chunk sizes remaining, enumerate index `i`, running `total_size`
`t`, pending stream exception.  Flag read for chunk `i` has index `2 + i`.
Returns the emissions from this point on and the final `total_size`. -/
def audioLoop (c : Option Nat) (clen : Option Nat) :
    List Nat → Nat → Nat → Option (Bool × String) → List AudEvent × Nat
  | [], _i, t, sErr =>
    match sErr with
    | some (isNet, m) =>
      ([.finished false (if isNet then "Error de red generando audio: " ++ m else m)], t)
    | none =>
      if t = 0 then
        ([.finished false "Error: Archivo de audio generado está vacío."], t)
      else
        ([.progress 100, .finished true ""], t)
  | sz :: rest, i, t, sErr =>
    if flagAt c (2 + i) = false then
      ([.finished false "Generación de audio cancelada durante la descarga."], t)
    else if sz = 0 then
      audioLoop c clen rest (i + 1) t sErr
    else
      let t' := t + sz
      let r := audioLoop c clen rest (i + 1) t' sErr
      (chunkProgress clen i t' :: r.1, r.2)

/-- Embedding of `AudioGenerator.run` (lines 77-147).  Flag reads: index 0 at the top of
`run`, index 1 after the request returns, index `2 + i` inside the loop for
the `i`-th chunk. -/
def audioRun (c : Option Nat) (reply : StreamReply) : AudioRunResult :=
  if flagAt c 0 = false then
    ⟨[.finished false "Generación de audio cancelada antes de iniciar."], 0, false⟩
  else
    match reply with
    | .netErr m => ⟨[.finished false ("Error de red generando audio: " ++ m)], 0, true⟩
    | .otherErr m => ⟨[.finished false m], 0, true⟩
    | .ok status body clen chunks sErr =>
      if flagAt c 1 = false then
        ⟨[.finished false "Generación de audio cancelada durante la petición."], 0, true⟩
      else if status = 200 then
        let r := audioLoop c clen chunks 0 0 sErr
        ⟨r.1, r.2, true⟩
      else
        ⟨[.finished false ("Error al generar audio: " ++ toString status ++ " - " ++ body)],
         0, true⟩

/-! ## `NovitaApiClient` (Video/main-gui.py, lines 18-151) -/

/-- Parsed body of a `/task-result` response: the fields the code reads,
after the `data.get("task", {})` / `.get(...)` defaulting.  A missing
`task` object is represented by `status = "unknown"`, `videoUrl = none`,
`errorMessage = none`. -/
structure TaskData where
  status : String
  videoUrl : Option String
  errorMessage : Option String
deriving DecidableEq

/-- HTTP result of the `requests.get` in `get_task_result`. -/
inductive VHttpReply where
  | ok (status : Nat) (body : String) (json : Except String TaskData)
  | netErr (msg : String)
  | otherErr (msg : String)

/-- Python `x or default` for an optional string field. -/
def orDefault (o : Option String) (d : String) : String :=
  match o with
  | some s => if s = "" then d else s
  | none => d

/-- Embedding of `NovitaApiClient.get_task_result` (lines 108-151): returns
`(status, result.get("video_url"), message)`; the second component stands
for the `result` dict, of which only the `video_url` entry is ever read. -/
def get_task_result (apiKey taskId : String) (reply : VHttpReply) :
    String × Option String × String :=
  if apiKey = "" then ("failed", none, "API Key no proporcionada.")
  else if taskId = "" then ("failed", none, "Task ID no proporcionado.")
  else
    match reply with
    | .netErr m =>
      ("failed", none, "Error de conexión al consultar estado de tarea " ++ taskId ++ ": " ++ m)
    | .otherErr m =>
      ("failed", none,
        "Ocurrió un error inesperado al consultar el estado de la tarea " ++ taskId ++ ": " ++ m)
    | .ok status body json =>
      if status = 200 then
        match json with
        | .error m =>
          ("failed", none,
            "Ocurrió un error inesperado al consultar el estado de la tarea " ++ taskId
              ++ ": " ++ m)
        | .ok td =>
          if td.status = "completed" then
            match td.videoUrl with
            | some u =>
              if u ≠ "" then ("completed", td.videoUrl, "Tarea completada exitosamente.")
              else
                ("failed", td.videoUrl,
                  "Tarea completada, pero no se encontró la URL del video en el resultado.")
            | none =>
              ("failed", td.videoUrl,
                "Tarea completada, pero no se encontró la URL del video en el resultado.")
          else if td.status = "failed" then
            ("failed", td.videoUrl,
              "Tarea fallida: " ++ orDefault td.errorMessage "Motivo desconocido")
          else
            (td.status, td.videoUrl, "Estado de la tarea: " ++ td.status ++ "...")
      else
        ("failed", none,
          "Error al consultar estado de tarea " ++ taskId ++ ": Código "
            ++ toString status ++ " - " ++ body)

/-- Parsed body of the `wan-i2v` submission response: the `task_id` field
and the printed form of the whole document (used in the error message). -/
structure StartJson where
  taskId : Option String
  printed : String

/-- HTTP result of the `requests.post` in `start_image_to_video_task`. -/
inductive SHttpReply where
  | ok (status : Nat) (body : String) (json : Except String StartJson)
  | netErr (msg : String)
  | otherErr (msg : String)

/-- Embedding of `NovitaApiClient.start_image_to_video_task` (lines 68-105):
returns the
`(task_id, message)` pair (the third returned component, the raw response
data, is dropped; evaluating `response.json()` for it can still raise,
which the embedding reproduces on the non-200 path). -/
def start_image_to_video_task (apiKey imageUrl prompt : String) (reply : SHttpReply) :
    Option String × String :=
  if apiKey = "" then (none, "API Key no proporcionada.")
  else if imageUrl = "" then (none, "La URL de la imagen no puede estar vacía.")
  else if prompt = "" then (none, "El prompt no puede estar vacío.")
  else
    match reply with
    | .netErr m => (none, "Error de conexión al iniciar tarea: " ++ m)
    | .otherErr m => (none, "Ocurrió un error inesperado al iniciar la tarea: " ++ m)
    | .ok status body json =>
      if status = 200 then
        match json with
        | .error m => (none, "Ocurrió un error inesperado al iniciar la tarea: " ++ m)
        | .ok sj =>
          match sj.taskId with
          | some t =>
            if t ≠ "" then (some t, "Tarea de generación iniciada.")
            else (none, "Error: La API no devolvió un task_id válido. Respuesta: " ++ sj.printed)
          | none =>
            (none, "Error: La API no devolvió un task_id válido. Respuesta: " ++ sj.printed)
      else
        -- `response.json() if response.text else None` may raise here too
        if body ≠ "" then
          match json with
          | .error m => (none, "Ocurrió un error inesperado al iniciar la tarea: " ++ m)
          | .ok _ =>
            (none, "Error al iniciar tarea: Código " ++ toString status ++ " - " ++ body)
        else
          (none, "Error al iniciar tarea: Código " ++ toString status ++ " - " ++ body)

/-! ## `VideoTaskWorker` (Video/main-gui.py, lines 154-200) -/

/-- What one `get_task_result` call hands the polling worker:
`(status, result, message)`, with `result` again abstracted to its
`video_url` entry. -/
structure QueryReply where
  status : String
  videoUrl : Option String
  message : String

/-- Signals of `VideoTaskWorker`: `task_status_updated`, `task_completed`,
`task_failed`.  There is no cancellation signal. -/
inductive VidEvent where
  | statusUpdate (msg : String)
  | taskCompleted (url : String)
  | taskFailed (msg : String)

/-- Truth exactly for the terminal signals of the worker. -/
def isTerminalVid : VidEvent → Bool
  | .statusUpdate _ => false
  | .taskCompleted _ => true
  | .taskFailed _ => true

/-- The timeout message emitted after the loop when the flag is still set
(line 195). -/
def timeoutMsg (tid : String) : String :=
  "Tiempo de espera agotado. La tarea " ++ tid.take 8 ++ "... podría seguir procesando."

/-- The per-iteration status message (line 180). -/
def statusMsg (tid msg : String) : String :=
  "Tarea " ++ tid.take 8 ++ "... - " ++ msg

/-- The initial status message (line 172). -/
def startMsg (tid : String) : String :=
  "Iniciando monitoreo de tarea: " ++ tid

/-- The message of line 187 (`completed` with falsy `video_url`). -/
def noUrlMsg : String := "La tarea completó pero no se encontró URL de video."

/-- The polling loop of `VideoTaskWorker.run` (lines 174-195), including
the post-loop timeout check.  `fuel = max_polls - poll_count`; `i` is the
index of the next flag read (one read per `while` test, plus one final
read by the `if self._is_running:` after the loop); `p` is the index of
the next query.  Returns the emissions and the number of status queries
issued.  After a terminal emission the code sets `_is_running = False`
itself, so both subsequent reads see `False` and nothing more is emitted. -/
def videoLoop (q : Nat → QueryReply) (c : Option Nat) (tid : String) :
    Nat → Nat → Nat → List VidEvent × Nat
  | 0, i, _p =>
    -- loop exits with `poll_count = max_polls`; final flag read at index `i + 1`
    (if flagAt c (i + 1) then [.taskFailed (timeoutMsg tid)] else [], 0)
  | fuel + 1, i, p =>
    if flagAt c i = false then
      ([], 0)  -- loop exits; the final read also sees `False`: silent exit
    else
      let r := q p
      let ev := VidEvent.statusUpdate (statusMsg tid r.message)
      if r.status = "completed" then
        match r.videoUrl with
        | some u =>
          if u ≠ "" then ([ev, .taskCompleted u], 1)
          else ([ev, .taskFailed noUrlMsg], 1)
        | none => ([ev, .taskFailed noUrlMsg], 1)
      else if r.status = "failed" then
        ([ev, .taskFailed r.message], 1)
      else
        let rest := videoLoop q c tid fuel (i + 1) (p + 1)
        (ev :: rest.1, rest.2 + 1)

/-- Embedding of `VideoTaskWorker.run` (lines 166-195): the initial status emission
followed by the polling loop with `max_polls = maxPolls`.  Returns the
emissions in order and the number of status queries issued. -/
def videoRun (q : Nat → QueryReply) (c : Option Nat) (tid : String) (maxPolls : Nat) :
    List VidEvent × Nat :=
  let r := videoLoop q c tid maxPolls 0 0
  (VidEvent.statusUpdate (startMsg tid) :: r.1, r.2)

/-- Adapter: feed a `get_task_result` return value to the worker. -/
def replyOfClient (r : String × Option String × String) : QueryReply :=
  ⟨r.1, r.2.1, r.2.2⟩

/-! ## `ImageGeneratorThread` (Imagenes/main-gui.py, lines 23-59) -/

/-- Signals of `ImageGeneratorThread`: `progress_signal`, `result_signal`
(response bytes), `error_signal`, `finished_signal` (elapsed seconds,
omitted). -/
inductive ImgEvent where
  | progressSig (msg : String)
  | resultSig (content : String)
  | finishedSig
  | errorSig (msg : String)
deriving DecidableEq

/-- HTTP result of the `requests.post` in `ImageGeneratorThread.run`. -/
inductive IHttpReply where
  | ok (status : Nat) (body : String)
  | exc (msg : String)

/-- Embedding of `ImageGeneratorThread.run` (lines 35-59). -/
def imageGenRun (reply : IHttpReply) : List ImgEvent :=
  ImgEvent.progressSig "Enviando solicitud a FLUX.1-schnell..." ::
    match reply with
    | .exc m => [.errorSig ("Error: " ++ m)]
    | .ok status body =>
      if status = 200 then [.resultSig body, .finishedSig]
      else [.errorSig ("Error " ++ toString status ++ ": " ++ body)]

/-! ## Helper lemmas -/

theorem data_append (s t : String) : (s ++ t).data = s.data ++ t.data := by
  cases s; cases t; rfl

theorem ne_of_data_get?_ne (n : Nat) {s t : String}
    (h : s.data.get? n ≠ t.data.get? n) : s ≠ t := by
  intro he; exact h (by rw [he])

/-- The timeout message of the worker is distinct from every message produced by
`get_task_result` for a provider-reported failed job (which always has the
form `"Tarea fallida: " ++ e`). -/
theorem timeoutMsg_ne_failedMsg (tid e : String) :
    timeoutMsg tid ≠ "Tarea fallida: " ++ e := by
  apply ne_of_data_get?_ne 1
  rw [timeoutMsg, data_append, data_append, data_append]
  rw [List.append_assoc]
  rw [List.get?_append (by decide)]
  rw [List.get?_append (by decide)]
  decide

/-- The empty-file failure message is distinct from every transport-error
message of `AudioGenerator.run`. -/
theorem emptyMsg_ne_netMsg (m : String) :
    "Error: Archivo de audio generado está vacío." ≠
      "Error de red generando audio: " ++ m := by
  apply ne_of_data_get?_ne 5
  rw [data_append, List.get?_append (by decide)]
  decide

theorem dropLast_cons' {α : Type} (a : α) (l : List α) (h : l ≠ []) :
    (a :: l).dropLast = a :: l.dropLast := by
  cases l with
  | nil => exact absurd rfl h
  | cons b t => rfl

theorem getLast?_cons_some {α : Type} {l : List α} {x : α} (a : α)
    (h : l.getLast? = some x) : (a :: l).getLast? = some x := by
  cases l with
  | nil => simp at h
  | cons b t => rw [List.getLast?_cons_cons]; exact h

/-! ## Claims C2, C9 (runner exclusivity, token monotonicity) -/

/-- C2: while the runner slot holds a running thread, every `_start_worker`
call returns `False` and spawns no new thread; iterating any number of
starts from the active state leaves the state unchanged. -/
theorem claim_C2_exclusivity (n : Nat) :
    startMany (some true) n = (some true, List.replicate n false, 0) := by
  induction n with
  | zero => rfl
  | succ k ih => simp [startMany, startWorker, ih, List.replicate_succ]

theorem applyWrite_eq_false (s : Bool) (w : TokenWrite) : applyWrite s w = false := by
  cases w <;> rfl

theorem foldl_applyWrite_false (l : List TokenWrite) :
    l.foldl applyWrite false = false := by
  induction l with
  | nil => rfl
  | cons w t ih => rw [List.foldl_cons, applyWrite_eq_false]; exact ih

/-- C9: the cancellation token starts un-cancelled (`is_running = True` in
`__init__`), every write after construction (`stop()` or the `finally`
clause of `run`) produces `False`, and once the token reads `False` it
stays `False` under any further sequence of operations. -/
theorem claim_C9_token_monotone :
    tokenInit = true ∧
    (∀ s w, applyWrite s w ≠ true) ∧
    (∀ ws ws', tokenAfter ws = false → tokenAfter (ws ++ ws') = false) := by
  refine ⟨rfl, fun s w => by rw [applyWrite_eq_false]; exact Bool.false_ne_true, ?_⟩
  intro ws ws' h
  rw [tokenAfter, List.foldl_append]
  rw [tokenAfter] at h
  rw [h]
  exact foldl_applyWrite_false ws'

theorem claim_C9_token_monotone_witness :
    tokenAfter ([TokenWrite.stopW] ++ [TokenWrite.runFinallyW]) = false :=
  claim_C9_token_monotone.2.2 [TokenWrite.stopW] [TokenWrite.runFinallyW] rfl

/-! ## Claims C7, C8 (simple-request error mapping, cancel-before-effect) -/

/-- C7: `ApiWorker.run` maps every non-2xx response to a failure emission
carrying the status code and the body, and every raised
`RequestException` to a failure emission carrying the error message;
both with `success = false`. -/
theorem claim_C7_error_mapping (m : Method) (status : Nat) (body : String)
    (j : Except String String) (msg : String)
    (h : ¬(200 ≤ status ∧ status < 300)) :
    apiWorkerRun none m (.ok status body j) =
      ⟨[⟨.noData, false, "Error: " ++ toString status ++ " - " ++ body⟩], true⟩ ∧
    apiWorkerRun none m (.netErr msg) =
      ⟨[⟨.noData, false, "Error de red: " ++ msg⟩], true⟩ := by
  have h200 : ¬(status = 200) := by
    rintro rfl
    exact h ⟨le_refl _, by norm_num⟩
  constructor <;> simp [apiWorkerRun, flagAt, h200]

theorem claim_C7_error_mapping_witness :
    apiWorkerRun none Method.get (.ok 404 "Not Found" (.error "boom")) =
      ⟨[⟨.noData, false, "Error: " ++ toString 404 ++ " - " ++ "Not Found"⟩], true⟩ ∧
    apiWorkerRun none Method.get (.netErr "dns") =
      ⟨[⟨.noData, false, "Error de red: " ++ "dns"⟩], true⟩ :=
  claim_C7_error_mapping Method.get 404 "Not Found" (.error "boom") "dns" (by decide)

/-- C8: if the cancellation flag is already cleared when `run` starts
(read 0 sees `False`), both workers emit only the cancelled-before-start
outcome, issue no HTTP request (`requested = false`), and write no bytes. -/
theorem claim_C8_cancel_before_effect (c : Option Nat) (m : Method)
    (r : HttpReply) (r2 : StreamReply) (h : flagAt c 0 = false) :
    apiWorkerRun c m r =
      ⟨[⟨.noData, false, "Operación cancelada antes de iniciar."⟩], false⟩ ∧
    audioRun c r2 =
      ⟨[.finished false "Generación de audio cancelada antes de iniciar."], 0, false⟩ := by
  constructor
  · simp [apiWorkerRun, h]
  · simp [audioRun, h]

theorem claim_C8_cancel_before_effect_witness :
    apiWorkerRun (some 0) Method.get (.netErr "x") =
      ⟨[⟨.noData, false, "Operación cancelada antes de iniciar."⟩], false⟩ ∧
    audioRun (some 0) (.netErr "x") =
      ⟨[.finished false "Generación de audio cancelada antes de iniciar."], 0, false⟩ :=
  claim_C8_cancel_before_effect (some 0) Method.get (.netErr "x") (.netErr "x") rfl

/-! ## Claim C6 (empty-stream detection) -/

theorem audioLoop_sum_zero (clen : Option Nat) :
    ∀ (chunks : List Nat), chunks.sum = 0 → ∀ i,
      audioLoop none clen chunks i 0 none =
        ([.finished false "Error: Archivo de audio generado está vacío."], 0) := by
  intro chunks
  induction chunks with
  | nil => intro _ i; rfl
  | cons sz rest ih =>
    intro h i
    have hs : (sz :: rest).sum = sz + rest.sum := List.sum_cons
    rw [h] at hs
    have hsz : sz = 0 := by omega
    have hrest : rest.sum = 0 := by omega
    subst hsz
    show audioLoop none clen (0 :: rest) i 0 none = _
    rw [audioLoop]
    simp [flagAt]
    exact ih hrest (i + 1)

/-- C6: a streaming download that reaches stream end under HTTP 200 with
zero total bytes written resolves to the empty-result failure (`success =
false`), never to success, and the message is distinct from every
transport-error message. -/
theorem claim_C6_empty_stream (body : String) (clen : Option Nat)
    (chunks : List Nat) (h : chunks.sum = 0) :
    audioRun none (.ok 200 body clen chunks none) =
      ⟨[.finished false "Error: Archivo de audio generado está vacío."], 0, true⟩ ∧
    ∀ m, "Error: Archivo de audio generado está vacío." ≠
      "Error de red generando audio: " ++ m := by
  refine ⟨?_, emptyMsg_ne_netMsg⟩
  simp [audioRun, flagAt]
  rw [audioLoop_sum_zero clen chunks h 0]
  exact ⟨rfl, rfl⟩

theorem claim_C6_empty_stream_witness :
    audioRun none (.ok 200 "" (some 5) [0, 0] none) =
      ⟨[.finished false "Error: Archivo de audio generado está vacío."], 0, true⟩ ∧
    ∀ m, "Error: Archivo de audio generado está vacío." ≠
      "Error de red generando audio: " ++ m :=
  claim_C6_empty_stream "" (some 5) [0, 0] rfl

/-! ## Claim C10 (success requires status code exactly 200) -/

theorem start_task_none_of_non200 (k iu pr : String) (status : Nat) (body : String)
    (j : Except String StartJson) (h : status ≠ 200) :
    (start_image_to_video_task k iu pr (.ok status body j)).1 = none := by
  cases j with
  | error m => simp [start_image_to_video_task, h]; split_ifs <;> rfl
  | ok sj =>
    obtain ⟨tid, pd⟩ := sj
    cases tid <;> simp [start_image_to_video_task, h] <;> split_ifs <;> rfl

theorem get_task_result_failed_of_non200 (k t : String) (status : Nat) (body : String)
    (j : Except String TaskData) (h : status ≠ 200) :
    (get_task_result k t (.ok status body j)).1 = "failed" := by
  simp [get_task_result, h]
  split_ifs <;> rfl

/-- C10: in every worker and in the API client, a success outcome arises
only when the HTTP status code is exactly 200; any other status code
(including other 2xx codes) yields a failure outcome. -/
theorem claim_C10_success_requires_200 :
    (∀ c m status body j e, e ∈ (apiWorkerRun c m (.ok status body j)).events →
      e.success = true → status = 200) ∧
    (∀ c m status body j e, status ≠ 200 →
      e ∈ (apiWorkerRun c m (.ok status body j)).events → e.success = false) ∧
    (∀ c status body clen chunks sErr msg,
      AudEvent.finished true msg ∈ (audioRun c (.ok status body clen chunks sErr)).events →
      status = 200) ∧
    (∀ c status body clen chunks sErr b msg, status ≠ 200 →
      AudEvent.finished b msg ∈ (audioRun c (.ok status body clen chunks sErr)).events →
      b = false) ∧
    (∀ k iu pr status body j t,
      (start_image_to_video_task k iu pr (.ok status body j)).1 = some t → status = 200) ∧
    (∀ k iu pr status body j, status ≠ 200 →
      (start_image_to_video_task k iu pr (.ok status body j)).1 = none) ∧
    (∀ k t status body j,
      (get_task_result k t (.ok status body j)).1 = "completed" → status = 200) ∧
    (∀ status body, ImgEvent.finishedSig ∈ imageGenRun (.ok status body) → status = 200) ∧
    (∀ status body, status ≠ 200 → imageGenRun (.ok status body) =
      [.progressSig "Enviando solicitud a FLUX.1-schnell...",
       .errorSig ("Error " ++ toString status ++ ": " ++ body)]) := by
  refine ⟨?_, ?_, ?_, ?_, ?_, ?_, ?_, ?_, ?_⟩
  · intro c m status body j e he hs
    by_cases h : status = 200
    · exact h
    · exfalso
      cases h0 : flagAt c 0 <;> cases h1 : flagAt c 1 <;>
        simp [apiWorkerRun, h0, h1, h] at he <;> (subst he; simp at hs)
  · intro c m status body j e h he
    cases h0 : flagAt c 0 <;> cases h1 : flagAt c 1 <;>
      simp [apiWorkerRun, h0, h1, h] at he <;> (subst he; rfl)
  · intro c status body clen chunks sErr msg he
    by_cases h : status = 200
    · exact h
    · exfalso
      cases h0 : flagAt c 0 <;> cases h1 : flagAt c 1 <;>
        simp [audioRun, h0, h1, h] at he
  · intro c status body clen chunks sErr b msg h he
    cases h0 : flagAt c 0 <;> cases h1 : flagAt c 1 <;>
      simp [audioRun, h0, h1, h] at he <;> exact he.1
  · intro k iu pr status body j t h
    by_cases hs : status = 200
    · exact hs
    · exact absurd h (by rw [start_task_none_of_non200 k iu pr status body j hs]; simp)
  · intro k iu pr status body j h
    exact start_task_none_of_non200 k iu pr status body j h
  · intro k t status body j h
    by_cases hs : status = 200
    · exact hs
    · rw [get_task_result_failed_of_non200 k t status body j hs] at h
      exact absurd h (by decide)
  · intro status body he
    by_cases h : status = 200
    · exact h
    · simp [imageGenRun, h] at he
  · intro status body h
    simp [imageGenRun, h]

theorem claim_C10_success_requires_200_witness :
    (start_image_to_video_task "k" "http://img" "a cat"
      (.ok 204 "" (.ok ⟨some "tid", "data"⟩))).1 = none ∧
    imageGenRun (.ok 204 "No Content") =
      [.progressSig "Enviando solicitud a FLUX.1-schnell...",
       .errorSig ("Error " ++ toString 204 ++ ": " ++ "No Content")] :=
  ⟨claim_C10_success_requires_200.2.2.2.2.2.1 "k" "http://img" "a cat" 204 ""
      (.ok ⟨some "tid", "data"⟩) (by decide),
   claim_C10_success_requires_200.2.2.2.2.2.2.2.2 204 "No Content" (by decide)⟩

/-! ## Claim C5 (known-length streaming progress) -/

/-- The `progress` percentages emitted, in order. -/
def progressVals (evs : List AudEvent) : List Nat :=
  evs.filterMap fun e =>
    match e with
    | .progress p => some p
    | .finished _ _ => none

/-- Running `total_size` after each nonempty chunk, starting from total `t`. -/
def prefixTotals : List Nat → Nat → List Nat
  | [], _ => []
  | sz :: rest, t =>
    if sz = 0 then prefixTotals rest t
    else (t + sz) :: prefixTotals rest (t + sz)

theorem audioLoop_known_length (l : Nat) (hl : l ≠ 0) :
    ∀ (chunks : List Nat) (i t : Nat),
      audioLoop none (some l) chunks i t none =
        (((prefixTotals chunks t).map fun s => AudEvent.progress (s * 100 / l)) ++
          (if t + chunks.sum = 0 then
            [.finished false "Error: Archivo de audio generado está vacío."]
          else [.progress 100, .finished true ""]),
        t + chunks.sum) := by
  intro chunks
  induction chunks with
  | nil =>
    intro i t
    by_cases ht : t = 0 <;> simp [audioLoop, prefixTotals, ht]
  | cons sz rest ih =>
    intro i t
    rw [audioLoop]
    simp only [flagAt]
    rw [if_neg (by simp)]
    by_cases hsz : sz = 0
    · subst hsz
      rw [if_pos rfl]
      simp only [prefixTotals, if_pos rfl, List.sum_cons, Nat.zero_add]
      exact ih (i + 1) t
    · rw [if_neg hsz]
      simp only [prefixTotals, if_neg hsz, List.sum_cons]
      have h1 : t + (sz + rest.sum) = t + sz + rest.sum := by omega
      rw [ih (i + 1) (t + sz)]
      simp only [chunkProgress, if_pos hl, h1, List.map_cons, List.cons_append]

theorem prefixTotals_mem_le :
    ∀ (chunks : List Nat) (t : Nat), ∀ x ∈ prefixTotals chunks t,
      t ≤ x ∧ x ≤ t + chunks.sum := by
  intro chunks
  induction chunks with
  | nil => intro t x hx; simp [prefixTotals] at hx
  | cons sz rest ih =>
    intro t x hx
    rw [prefixTotals] at hx
    rw [List.sum_cons]
    by_cases hsz : sz = 0
    · rw [if_pos hsz] at hx
      have := ih t x hx
      omega
    · rw [if_neg hsz] at hx
      rcases List.mem_cons.1 hx with h | h
      · subst h
        have : (0 : Nat) ≤ rest.sum := Nat.zero_le _
        omega
      · have := ih (t + sz) x h
        omega

theorem prefixTotals_chain :
    ∀ (chunks : List Nat) (t : Nat), List.Chain' (· ≤ ·) (prefixTotals chunks t) := by
  intro chunks
  induction chunks with
  | nil => intro t; simp [prefixTotals]
  | cons sz rest ih =>
    intro t
    rw [prefixTotals]
    by_cases hsz : sz = 0
    · rw [if_pos hsz]; exact ih t
    · rw [if_neg hsz]
      rw [List.chain'_cons']
      refine ⟨?_, ih (t + sz)⟩
      intro y hy
      exact (prefixTotals_mem_le rest (t + sz) y
        (List.mem_of_mem_head? hy)).1

theorem div_bound_100 {l s : Nat} (hl : 0 < l) (h : s ≤ l) : s * 100 / l ≤ 100 := by
  calc s * 100 / l ≤ l * 100 / l := Nat.div_le_div_right (Nat.mul_le_mul_right _ h)
    _ = 100 := Nat.mul_div_cancel_left 100 hl

/-- C5 counterexample: with declared length 1 and a single 2-byte chunk
(total bytes > content length), the stream ends successfully but the
emitted progress values are `[200, 100]`: 200 is outside `[0,100]` and the
sequence is not non-decreasing. -/
theorem claim_C5_counterexample :
    (audioRun none (.ok 200 "" (some 1) [2] none)).events =
      [.progress 200, .progress 100, .finished true ""] ∧
    ¬(∀ p ∈ progressVals (audioRun none (.ok 200 "" (some 1) [2] none)).events, p ≤ 100) ∧
    ¬ List.Chain' (· ≤ ·)
        (progressVals (audioRun none (.ok 200 "" (some 1) [2] none)).events) := by
  refine ⟨rfl, by decide, ?_⟩
  intro h
  rw [show progressVals (audioRun none (.ok 200 "" (some 1) [2] none)).events =
      [200, 100] from rfl] at h
  rw [List.chain'_cons] at h
  exact absurd h.1 (by decide)

/-- C5 (amended): for the known-length streaming download with declared
length `L ≥ 1`, when the total bytes delivered do not exceed `L` and the
stream ends successfully, every emitted progress value is
`total_size * 100 / L` after the corresponding chunk, all values lie in
`[0,100]`, the sequence is non-decreasing, and the final emitted value is
exactly 100.  (Without the `total ≤ L` restriction the claim fails; see the
counterexample.) -/
theorem claim_C5_progress_amended (l : Nat) (body : String) (chunks : List Nat)
    (hl : 0 < l) (hsum : chunks.sum ≤ l) (hpos : chunks.sum ≠ 0) :
    progressVals (audioRun none (.ok 200 body (some l) chunks none)).events =
      ((prefixTotals chunks 0).map fun s => s * 100 / l) ++ [100] ∧
    (∀ p ∈ progressVals (audioRun none (.ok 200 body (some l) chunks none)).events,
      p ≤ 100) ∧
    List.Chain' (· ≤ ·)
      (progressVals (audioRun none (.ok 200 body (some l) chunks none)).events) ∧
    (progressVals (audioRun none (.ok 200 body (some l) chunks none)).events).getLast? =
      some 100 := by
  have hev : (audioRun none (.ok 200 body (some l) chunks none)).events =
      ((prefixTotals chunks 0).map fun s => AudEvent.progress (s * 100 / l)) ++
        [.progress 100, .finished true ""] := by
    simp only [audioRun, flagAt]
    rw [audioLoop_known_length l (Nat.pos_iff_ne_zero.1 hl) chunks 0 0]
    simp [hpos]
  have hpv : progressVals (audioRun none (.ok 200 body (some l) chunks none)).events =
      ((prefixTotals chunks 0).map fun s => s * 100 / l) ++ [100] := by
    rw [hev, progressVals, List.filterMap_append, List.filterMap_map]
    congr 1
    rw [show ((fun e => match e with
          | AudEvent.progress p => some p
          | AudEvent.finished _ _ => none) ∘ fun s => AudEvent.progress (s * 100 / l)) =
        some ∘ fun s => s * 100 / l from rfl]
    rw [List.filterMap_eq_map]
  have hmem : ∀ p ∈ ((prefixTotals chunks 0).map fun s => s * 100 / l) ++ [100],
      p ≤ 100 := by
    intro p hp
    rcases List.mem_append.1 hp with h | h
    · obtain ⟨s, hs, rfl⟩ := List.mem_map.1 h
      have := (prefixTotals_mem_le chunks 0 s hs).2
      exact div_bound_100 hl (by omega)
    · simp at h
      omega
  refine ⟨hpv, ?_, ?_, ?_⟩
  · rw [hpv]; exact hmem
  · rw [hpv]
    refine List.Chain'.append ?_ (List.chain'_singleton _) ?_
    · rw [List.chain'_map]
      exact (prefixTotals_chain chunks 0).imp fun a b hab =>
        Nat.div_le_div_right (Nat.mul_le_mul_right _ hab)
    · intro x hx y hy
      simp at hy
      subst hy
      exact hmem x (List.mem_append_left _ (List.mem_of_getLast?_eq_some hx))
  · rw [hpv]
    exact List.getLast?_concat _

theorem claim_C5_progress_amended_witness :
    progressVals (audioRun none (.ok 200 "" (some 10) [4, 6] none)).events =
      ((prefixTotals [4, 6] 0).map fun s => s * 100 / 10) ++ [100] ∧
    (∀ p ∈ progressVals (audioRun none (.ok 200 "" (some 10) [4, 6] none)).events,
      p ≤ 100) ∧
    List.Chain' (· ≤ ·)
      (progressVals (audioRun none (.ok 200 "" (some 10) [4, 6] none)).events) ∧
    (progressVals (audioRun none (.ok 200 "" (some 10) [4, 6] none)).events).getLast? =
      some 100 :=
  claim_C5_progress_amended 10 "" [4, 6] (by decide) (by decide) (by decide)


/-! ## Claims C1, C3, C4 (terminal outcomes and the polling worker) -/

/-- Truth exactly for the terminal emission of `AudioGenerator`. -/
def isFinishedAud : AudEvent → Bool
  | .progress _ => false
  | .finished _ _ => true

theorem chunkProgress_not_finished (clen : Option Nat) (i t' : Nat) :
    isFinishedAud (chunkProgress clen i t') = false := by
  rcases clen with _ | l
  · rfl
  · by_cases hl : l ≠ 0
    · rw [chunkProgress, if_pos hl]; rfl
    · rw [chunkProgress, if_neg hl]; rfl

theorem countP_dropLast_cons {α : Type} (p : α → Bool) (a : α) (hpa : p a = false)
    (l : List α) (h : l.dropLast.countP p = 0) : (a :: l).dropLast.countP p = 0 := by
  cases l with
  | nil => rfl
  | cons b t =>
    rw [dropLast_cons' a (b :: t) (by simp)]
    rw [List.countP_cons_of_neg _ _ (by simp [hpa])]
    exact h

theorem audioLoop_one_finished (c : Option Nat) (clen : Option Nat) :
    ∀ (chunks : List Nat) (i t : Nat) (sErr : Option (Bool × String)),
      (audioLoop c clen chunks i t sErr).1.countP isFinishedAud = 1 ∧
      (audioLoop c clen chunks i t sErr).1.dropLast.countP isFinishedAud = 0 := by
  intro chunks
  induction chunks with
  | nil =>
    intro i t sErr
    rcases sErr with _ | ⟨b, m⟩
    · by_cases ht : t = 0 <;> simp [audioLoop, ht, isFinishedAud]
    · simp [audioLoop, isFinishedAud]
  | cons sz rest ih =>
    intro i t sErr
    rw [audioLoop]
    by_cases hf : flagAt c (2 + i) = false
    · rw [if_pos hf]; simp [isFinishedAud]
    · rw [if_neg hf]
      by_cases hsz : sz = 0
      · rw [if_pos hsz]; exact ih (i + 1) t sErr
      · rw [if_neg hsz]
        obtain ⟨h1, h2⟩ := ih (i + 1) (t + sz) sErr
        refine ⟨?_, ?_⟩
        · rw [List.countP_cons_of_neg _ _ (by simp [chunkProgress_not_finished])]
          exact h1
        · exact countP_dropLast_cons _ _ (chunkProgress_not_finished clen i (t + sz)) _ h2

theorem audioRun_one_finished (c : Option Nat) (reply : StreamReply) :
    (audioRun c reply).events.countP isFinishedAud = 1 ∧
    (audioRun c reply).events.dropLast.countP isFinishedAud = 0 := by
  by_cases h0 : flagAt c 0 = false
  · simp [audioRun, h0, isFinishedAud]
  · rcases reply with ⟨status, body, clen, chunks, sErr⟩ | m | m
    · by_cases h1 : flagAt c 1 = false
      · simp [audioRun, h0, h1, isFinishedAud]
      · by_cases hs : status = 200
        · have hev : (audioRun c (.ok status body clen chunks sErr)).events =
              (audioLoop c clen chunks 0 0 sErr).1 := by
            simp [audioRun, h0, h1, hs]
          rw [hev]
          exact audioLoop_one_finished c clen chunks 0 0 sErr
        · simp [audioRun, h0, h1, hs, isFinishedAud]
    · simp [audioRun, h0, isFinishedAud]
    · simp [audioRun, h0, isFinishedAud]

theorem apiWorkerRun_one_event (c : Option Nat) (m : Method) (reply : HttpReply) :
    (apiWorkerRun c m reply).events.length = 1 := by
  simp only [apiWorkerRun]
  repeat' split
  all_goals rfl

theorem videoLoop_terminal (q : Nat → QueryReply) (c : Option Nat) (tid : String) :
    ∀ (fuel i p : Nat),
      (videoLoop q c tid fuel i p).1.countP isTerminalVid ≤ 1 ∧
      (videoLoop q c tid fuel i p).1.dropLast.countP isTerminalVid = 0 := by
  intro fuel
  induction fuel with
  | zero =>
    intro i p
    rw [videoLoop]
    by_cases h : flagAt c (i + 1) = true <;> simp [h, isTerminalVid]
  | succ fuel ih =>
    intro i p
    rw [videoLoop]
    by_cases hf : flagAt c i = false
    · rw [if_pos hf]; simp
    · rw [if_neg hf]
      by_cases hc : (q p).status = "completed"
      · rw [if_pos hc]
        cases hvu : (q p).videoUrl with
        | none => simp [isTerminalVid]
        | some u => by_cases hu : u ≠ "" <;> simp [hu, isTerminalVid]
      · rw [if_neg hc]
        by_cases hfl : (q p).status = "failed"
        · rw [if_pos hfl]; simp [isTerminalVid]
        · rw [if_neg hfl]
          obtain ⟨h1, h2⟩ := ih (i + 1) (p + 1)
          refine ⟨?_, ?_⟩
          · rw [List.countP_cons_of_neg _ _ (by simp [isTerminalVid])]
            exact h1
          · exact countP_dropLast_cons _ _ (by rfl) _ h2

theorem videoLoop_none_terminal (q : Nat → QueryReply) (tid : String) :
    ∀ (fuel i p : Nat),
      (videoLoop q none tid fuel i p).1.countP isTerminalVid = 1 := by
  intro fuel
  induction fuel with
  | zero =>
    intro i p
    rw [videoLoop]
    simp [flagAt, isTerminalVid]
  | succ fuel ih =>
    intro i p
    rw [videoLoop]
    rw [if_neg (by simp [flagAt])]
    by_cases hc : (q p).status = "completed"
    · rw [if_pos hc]
      cases hvu : (q p).videoUrl with
      | none => simp [isTerminalVid]
      | some u => by_cases hu : u ≠ "" <;> simp [hu, isTerminalVid]
    · rw [if_neg hc]
      by_cases hfl : (q p).status = "failed"
      · rw [if_pos hfl]; simp [isTerminalVid]
      · rw [if_neg hfl]
        rw [List.countP_cons_of_neg _ _ (by simp [isTerminalVid])]
        exact ih (i + 1) (p + 1)

theorem videoLoop_nonterminal (q : Nat → QueryReply) (tid : String)
    (hq : ∀ p, (q p).status ≠ "completed" ∧ (q p).status ≠ "failed") :
    ∀ (fuel i p : Nat),
      (videoLoop q none tid fuel i p).2 = fuel ∧
      (videoLoop q none tid fuel i p).1.getLast? =
        some (.taskFailed (timeoutMsg tid)) := by
  intro fuel
  induction fuel with
  | zero =>
    intro i p
    rw [videoLoop]
    simp [flagAt]
  | succ fuel ih =>
    intro i p
    rw [videoLoop]
    rw [if_neg (by simp [flagAt])]
    rw [if_neg (hq p).1, if_neg (hq p).2]
    obtain ⟨h2, hl⟩ := ih (i + 1) (p + 1)
    exact ⟨by simp [h2], getLast?_cons_some _ hl⟩

theorem videoLoop_cancelled (q : Nat → QueryReply) (tid : String) (t : Nat)
    (hq : ∀ p, (q p).status ≠ "completed" ∧ (q p).status ≠ "failed") :
    ∀ (fuel i p : Nat), t ≤ i + fuel →
      (videoLoop q (some t) tid fuel i p).2 = t - i ∧
      (videoLoop q (some t) tid fuel i p).1.countP isTerminalVid = 0 := by
  intro fuel
  induction fuel with
  | zero =>
    intro i p h
    rw [videoLoop]
    have h2 : ¬(i + 1 < t) := by omega
    simp only [flagAt, decide_eq_true_eq]
    rw [if_neg h2]
    exact ⟨by omega, rfl⟩
  | succ fuel ih =>
    intro i p h
    rw [videoLoop]
    by_cases hit : i < t
    · rw [if_neg (by simp [flagAt, hit])]
      rw [if_neg (hq p).1, if_neg (hq p).2]
      obtain ⟨h2, h0⟩ := ih (i + 1) (p + 1) (by omega)
      refine ⟨?_, ?_⟩
      · show (videoLoop q (some t) tid fuel (i + 1) (p + 1)).2 + 1 = t - i
        rw [h2]; omega
      · rw [List.countP_cons_of_neg _ _ (by simp [isTerminalVid])]
        exact h0
    · rw [if_pos (by simp [flagAt, hit])]
      exact ⟨by simp; omega, rfl⟩


/-- A remote reply whose status is still non-terminal. -/
def pendingReply : QueryReply :=
  ⟨"processing", none, "Estado de la tarea: processing..."⟩

/-- C1 counterexample: when the cancellation flag is cleared mid-loop
(after the first iteration, with `max_polls = 3` and a never-terminal
remote status), `VideoTaskWorker.run` performs 1 query and then exits
emitting NO terminal outcome at all — not exactly one.  The worker has no
cancellation signal, and on this path the final `if self._is_running:`
is false, so neither `task_completed` nor `task_failed` is emitted. -/
theorem claim_C1_counterexample :
    (videoRun (fun _ => pendingReply) (some 1) "abc" 3).2 = 1 ∧
    (videoRun (fun _ => pendingReply) (some 1) "abc" 3).1.countP isTerminalVid = 0 :=
  ⟨rfl, rfl⟩

/-- C1 (amended): `ApiWorker.run` and `AudioGenerator.run` always emit
exactly one terminal `finished` outcome, as the last event, on every path
(the embeddings are total functions, so no exception escapes the boundary).
`VideoTaskWorker.run` emits at most one terminal outcome and never emits
an event after it, and emits exactly one whenever the cancellation flag is
never cleared; when the flag is cleared mid-loop it can exit with no
terminal outcome (see the counterexample). -/
theorem claim_C1_single_terminal_amended :
    (∀ c m reply, (apiWorkerRun c m reply).events.length = 1) ∧
    (∀ c reply, (audioRun c reply).events.countP isFinishedAud = 1 ∧
      (audioRun c reply).events.dropLast.countP isFinishedAud = 0) ∧
    (∀ q c tid N, (videoRun q c tid N).1.countP isTerminalVid ≤ 1 ∧
      (videoRun q c tid N).1.dropLast.countP isTerminalVid = 0) ∧
    (∀ q tid N, (videoRun q none tid N).1.countP isTerminalVid = 1) := by
  refine ⟨apiWorkerRun_one_event, audioRun_one_finished, ?_, ?_⟩
  · intro q c tid N
    obtain ⟨h1, h2⟩ := videoLoop_terminal q c tid N 0 0
    refine ⟨?_, ?_⟩
    · show (VidEvent.statusUpdate (startMsg tid) ::
        (videoLoop q c tid N 0 0).1).countP isTerminalVid ≤ 1
      rw [List.countP_cons_of_neg _ _ (by simp [isTerminalVid])]
      exact h1
    · exact countP_dropLast_cons _ _ (by rfl) _ h2
  · intro q tid N
    show (VidEvent.statusUpdate (startMsg tid) ::
      (videoLoop q none tid N 0 0).1).countP isTerminalVid = 1
    rw [List.countP_cons_of_neg _ _ (by simp [isTerminalVid])]
    exact videoLoop_none_terminal q tid N 0 0

/-- C3: with `max_polls = N`, no cancellation, and a remote job whose
reported status never becomes terminal (every poll returns HTTP 200 with a
status other than `completed`/`failed`), the worker driven by the real
`get_task_result` issues exactly `N` status queries and then its final
emission is `task_failed` with the timeout message — which is distinct from
every provider-failure message (`"Tarea fallida: " ++ e`) produced by
`get_task_result`, so the timeout outcome is distinguishable from a remote
job failure. -/
theorem claim_C3_polling_timeout (apiKey taskId : String) (N : Nat)
    (sched : Nat → VHttpReply) (hkey : apiKey ≠ "") (hid : taskId ≠ "")
    (hsched : ∀ p, ∃ body td, sched p = .ok 200 body (.ok td) ∧
      td.status ≠ "completed" ∧ td.status ≠ "failed") :
    (videoRun (fun p => replyOfClient (get_task_result apiKey taskId (sched p)))
      none taskId N).2 = N ∧
    (videoRun (fun p => replyOfClient (get_task_result apiKey taskId (sched p)))
      none taskId N).1.getLast? = some (.taskFailed (timeoutMsg taskId)) ∧
    (∀ e, timeoutMsg taskId ≠ "Tarea fallida: " ++ e) := by
  have hq : ∀ p,
      (replyOfClient (get_task_result apiKey taskId (sched p))).status ≠ "completed" ∧
      (replyOfClient (get_task_result apiKey taskId (sched p))).status ≠ "failed" := by
    intro p
    obtain ⟨body, td, heq, hc, hf⟩ := hsched p
    rw [heq]
    simp [get_task_result, replyOfClient, hkey, hid, hc, hf]
  obtain ⟨h2, hl⟩ := videoLoop_nonterminal _ taskId hq N 0 0
  exact ⟨h2, getLast?_cons_some _ hl, timeoutMsg_ne_failedMsg taskId⟩

theorem claim_C3_polling_timeout_witness :
    (videoRun (fun p => replyOfClient (get_task_result "k" "t"
      ((fun _ => VHttpReply.ok 200 "" (.ok ⟨"processing", none, none⟩)) p)))
      none "t" 2).2 = 2 ∧
    (videoRun (fun p => replyOfClient (get_task_result "k" "t"
      ((fun _ => VHttpReply.ok 200 "" (.ok ⟨"processing", none, none⟩)) p)))
      none "t" 2).1.getLast? = some (.taskFailed (timeoutMsg "t")) ∧
    (∀ e, timeoutMsg "t" ≠ "Tarea fallida: " ++ e) :=
  claim_C3_polling_timeout "k" "t" 2
    (fun _ => VHttpReply.ok 200 "" (.ok ⟨"processing", none, none⟩))
    (by decide) (by decide)
    (fun _ => ⟨"", ⟨"processing", none, none⟩, rfl, by decide, by decide⟩)

/-- C4 counterexample: the flag is cleared after 2 iterations
(`max_polls = 5`, never-terminal remote status): cancellation is detected
at the third `while` test, after which no further query is issued (query
count stays 2) — but no Cancelled outcome is ever emitted: the run contains
zero terminal events, refuting "immediately transitions to the Cancelled
outcome". -/
theorem claim_C4_counterexample :
    (videoRun (fun _ => ⟨"processing", none, "x"⟩) (some 2) "tsk" 5).2 = 2 ∧
    (videoRun (fun _ => ⟨"processing", none, "x"⟩) (some 2) "tsk" 5).1.countP
      isTerminalVid = 0 :=
  ⟨rfl, rfl⟩

/-- C4 (amended): cancellation is checked once per loop iteration — the
`while` condition, which precedes both the wait and the status query of
that iteration.  If the flag is cleared after `t` iterations (`t ≤ N`,
remote status still non-terminal), the worker issues exactly `t` queries —
none after detection — and exits emitting no terminal outcome at all: the
code has no Cancelled outcome, so detection leads to a silent exit rather
than a transition to Cancelled. -/
theorem claim_C4_cancel_check_amended (q : Nat → QueryReply) (tid : String) (t N : Nat)
    (hq : ∀ p, (q p).status ≠ "completed" ∧ (q p).status ≠ "failed") (ht : t ≤ N) :
    (videoRun q (some t) tid N).2 = t ∧
    (videoRun q (some t) tid N).1.countP isTerminalVid = 0 := by
  obtain ⟨h2, h0⟩ := videoLoop_cancelled q tid t hq N 0 0 (by omega)
  refine ⟨?_, ?_⟩
  · show (videoLoop q (some t) tid N 0 0).2 = t
    rw [h2]; omega
  · show (VidEvent.statusUpdate (startMsg tid) ::
      (videoLoop q (some t) tid N 0 0).1).countP isTerminalVid = 0
    rw [List.countP_cons_of_neg _ _ (by simp [isTerminalVid])]
    exact h0

theorem claim_C4_cancel_check_amended_witness :
    (videoRun (fun _ => ⟨"queued", none, "m"⟩) (some 1) "job" 3).2 = 1 ∧
    (videoRun (fun _ => ⟨"queued", none, "m"⟩) (some 1) "job" 3).1.countP
      isTerminalVid = 0 :=
  claim_C4_cancel_check_amended (fun _ => ⟨"queued", none, "m"⟩) "job" 1 3
    (by
      intro p
      show ("queued" : String) ≠ "completed" ∧ ("queued" : String) ≠ "failed"
      exact ⟨by decide, by decide⟩) (by omega)

end Spec2Proof
